import Mathlib

/-!
Shallow embedding of the staking position and reward accounting engine of the
Solana-Backend-Staking-Rewards service, together with proofs about its
specification.  The embedded functions mirror, statement by statement,

  * `StakingService.stakeTokens` / `unstakeTokens` / `finalizeUnstake` and its
    private helpers `calculatePowerMultiplier` / `getTierPenaltyMultiplier`
    (src/modules/staking/staking.service.ts),
  * `RewardsService.claimRewards` / `calculateProRataReward` / `applyApyCap`,
  * `CooldownFinalizerProcessor.handleCooldownFinalization`
    (src/modules/workers/processors/cooldown-finalizer.processor.ts),
  * `RewardDistributionProcessor.handleWeeklyDistribution`.

Amounts and unix-second timestamps are non-negative integers (`Nat`); the JS
`Math.floor(a / b)` on such values is `Nat` division.  Where the source can
produce negative intermediate values (reward math with a negative
`weeksElapsed`) we use `Int` with `Int.fdiv`, which is exactly JS `Math.floor`
of the exact quotient; JS division-by-zero (Infinity/NaN) is modelled by an
explicit branch, noted at each site.  Database rows become structures; the
`null`able Prisma columns `cooldownEnd` and `pendingPrincipal` become
`Option Nat`.  Fallible endpoints return `Except`.
-/

namespace StakingBackend

/-- Prisma `StakingTier` row: duration window plus activity flag.  The record
stores a reward `multiplier`; it has no penalty-rate column. -/
structure StakingTier where
  tierId : Nat
  multiplier : Nat
  minMonths : Nat
  maxMonths : Nat
  isActive : Bool
deriving Repr, DecidableEq

/-- Prisma `StakePosition` row (identity and audit columns omitted).
Timestamps are unix seconds. -/
structure StakePosition where
  amount : Nat
  durationMonths : Nat
  tierId : Nat
  powerMultiplier : Nat
  stakingPower : Nat
  startTs : Nat
  unlockTs : Nat
  lastRewardTs : Nat
  lastClaimTs : Nat
  cooldownEnd : Option Nat
  pendingPrincipal : Option Nat
  isActive : Bool
deriving Repr, DecidableEq

/-- Prisma `ProgramState` singleton row (GlobalState of the spec). -/
structure ProgramState where
  isPaused : Bool
  currentEpoch : Nat
  currentEpochStartTs : Nat
  currentWeeklyEmission : Nat
  totalStaked : Nat
  totalRewardPool : Nat
  totalStakingPower : Nat
deriving Repr, DecidableEq

/-- Prisma `PenaltyTransaction` row (PenaltyRecord of the spec). -/
structure PenaltyTransaction where
  penaltyAmount : Nat
  toRewardPool : Nat
  toProtocol : Nat
  tierMultiplier : Nat
deriving Repr, DecidableEq

/-- Prisma `RewardNft` row (RewardReceipt of the spec); only the fields the
claims mention. -/
structure RewardNft where
  rewardAmount : Int
  vestTs : Nat
  isActive : Bool
deriving Repr, DecidableEq

/-- `StakingService.calculatePowerMultiplier`: step function over duration
bands, in hundredths (100 = 1x). -/
def calculatePowerMultiplier (durationMonths : Nat) : Nat :=
  if 1 ≤ durationMonths ∧ durationMonths ≤ 5 then 100
  else if 6 ≤ durationMonths ∧ durationMonths ≤ 11 then 150
  else if 12 ≤ durationMonths ∧ durationMonths ≤ 17 then 200
  else if 18 ≤ durationMonths ∧ durationMonths ≤ 23 then 250
  else if 24 ≤ durationMonths ∧ durationMonths ≤ 35 then 300
  else if 36 ≤ durationMonths then 400
  else 100

/-- `StakingService.getTierPenaltyMultiplier`: hardcoded basis-point table
`{1: 500, 2: 750, 3: 1000, 4: 1250}` with the `|| 500` fallback for any other
tier id. -/
def getTierPenaltyMultiplier (tierId : Nat) : Nat :=
  if tierId = 1 then 500
  else if tierId = 2 then 750
  else if tierId = 3 then 1000
  else if tierId = 4 then 1250
  else 500

/-- `const weeklyPoolEmission = Math.floor((rewardPool * 21) / 10000)` in
`RewardsService.calculateProRataReward` (emission rate 21, precision 10000). -/
def weeklyPoolEmission (rewardPool : Int) : Int :=
  Int.fdiv (rewardPool * 21) 10000

/-- `const userWeeklyShare = Math.floor((weeklyPoolEmission * userStakingPower)
/ totalStakingPower)`; only evaluated with `totalStakingPower ≠ 0`. -/
def userWeeklyShare (rewardPool userStakingPower totalStakingPower : Int) : Int :=
  Int.fdiv (weeklyPoolEmission rewardPool * userStakingPower) totalStakingPower

/-- `RewardsService.applyApyCap`.  The `stakedAmount = 0` branch mirrors JS
division by zero: the annualized rate is Infinity when the numerator is
positive (so the cap branch returns `Math.floor(0 * 7500 * weeks / 520000) =
0`) and NaN when the numerator is zero (so the comparison fails and the zero
`rewardAmount` is returned); both give 0. -/
def applyApyCap (stakedAmount rewardAmount weeks : Int) : Int :=
  if weeks = 0 then rewardAmount
  else if stakedAmount = 0 then 0
  else
    if Int.fdiv (rewardAmount * 52 * 10000) (stakedAmount * weeks) > 7500 then
      Int.fdiv (stakedAmount * 7500 * weeks) (10000 * 52)
    else rewardAmount

/-- `RewardsService.calculateProRataReward`: zero when either power is zero,
otherwise the user's weekly share times the elapsed weeks, passed through the
APY cap. -/
def calculateProRataReward (userStakingPower totalStakingPower rewardPool weeks : Int) : Int :=
  if totalStakingPower = 0 ∨ userStakingPower = 0 then 0
  else
    applyApyCap userStakingPower
      (userWeeklyShare rewardPool userStakingPower totalStakingPower * weeks) weeks

/-- Typed errors thrown by `StakingService.stakeTokens`. -/
inductive StakeErr where
  | invalidTier
  | invalidDuration (minMonths maxMonths : Nat)
deriving Repr, DecidableEq

/-- Typed errors thrown by `StakingService.unstakeTokens`. -/
inductive UnstakeErr where
  | notFound
  | notActive
  | cooldownAlreadyActive
deriving Repr, DecidableEq

/-- Typed errors thrown by `StakingService.finalizeUnstake`; the
CooldownNotElapsed message reports the remaining seconds (the source renders
them as `Math.ceil(remaining / 3600)` hours). -/
inductive FinalizeErr where
  | notFound
  | stillActive
  | noCooldown
  | cooldownNotElapsed (remainingSeconds : Nat)
deriving Repr, DecidableEq

/-- Typed errors thrown by `RewardsService.claimRewards`; TooSoon carries the
remaining seconds of the 7-day claim interval. -/
inductive ClaimErr where
  | notFound
  | notActive
  | tooSoon (remainingSeconds : Nat)
  | nothingAccrued
  | noReward
deriving Repr, DecidableEq

/-- The part of `StakingService.stakeTokens`'s response the claims mention. -/
structure StakeResult where
  amount : Nat
  durationMonths : Nat
  powerMultiplier : Nat
  stakingPower : Nat
  unlockTimestamp : Nat
deriving Repr, DecidableEq

/-- `StakingService.stakeTokens` (Open): validates the tier and the duration
window, computes the power multiplier and staking power, and creates the
position row.  The function performs no read or write of `ProgramState`: the
created position is the only database mutation. -/
def stakeTokens (tier : Option StakingTier) (amount durationMonths tierId now : Nat) :
    Except StakeErr (StakePosition × StakeResult) :=
  match tier with
  | none => .error .invalidTier
  | some t =>
    if t.isActive = false then .error .invalidTier
    else if durationMonths < t.minMonths ∨ t.maxMonths < durationMonths then
      .error (.invalidDuration t.minMonths t.maxMonths)
    else
      let powerMultiplier := calculatePowerMultiplier durationMonths
      let stakingPower := amount * powerMultiplier / 100
      let unlockTimestamp := now + durationMonths * 30 * 24 * 60 * 60
      .ok
        ({ amount := amount
           durationMonths := durationMonths
           tierId := tierId
           powerMultiplier := powerMultiplier
           stakingPower := stakingPower
           startTs := now
           unlockTs := unlockTimestamp
           lastRewardTs := now
           lastClaimTs := now
           cooldownEnd := none
           pendingPrincipal := none
           isActive := true },
         { amount := amount
           durationMonths := durationMonths
           powerMultiplier := powerMultiplier
           stakingPower := stakingPower
           unlockTimestamp := unlockTimestamp })

/-- The part of `StakingService.unstakeTokens`'s response the claims mention. -/
structure UnstakeResult where
  cooldownEnd : Nat
  isEarlyUnstake : Bool
deriving Repr, DecidableEq

/-- `StakingService.unstakeTokens` (InitiateClose).  The guard
`position.cooldownEnd && position.cooldownEnd > 0` is `0 < cooldownEnd.getD 0`.
On an early unstake the penalty is taken from the hardcoded tier table, a
`PenaltyTransaction` row is written and `totalRewardPool` is credited with the
50% reward-pool share; the position then enters cooldown with
`pendingPrincipal = amount - penalty` (full amount when not early) and
`isActive = false`.  `totalStaked`/`totalStakingPower` are not touched. -/
def unstakeTokens (position : Option StakePosition) (st : ProgramState)
    (now cooldownPeriod : Nat) :
    Except UnstakeErr
      (StakePosition × ProgramState × Option PenaltyTransaction × UnstakeResult) :=
  match position with
  | none => .error .notFound
  | some p =>
    if p.isActive = false then .error .notActive
    else if 0 < p.cooldownEnd.getD 0 then .error .cooldownAlreadyActive
    else
      let cooldownEnd := now + cooldownPeriod
      if now < p.unlockTs then
        let tierMultiplier := getTierPenaltyMultiplier p.tierId
        let penaltyAmount := p.amount * tierMultiplier / 10000
        let toRewardPool := penaltyAmount / 2
        let toProtocol := penaltyAmount / 2
        let principalAfterPenalty := p.amount - penaltyAmount
        .ok
          ({ p with
              cooldownEnd := some cooldownEnd
              pendingPrincipal := some principalAfterPenalty
              isActive := false },
           { st with totalRewardPool := st.totalRewardPool + toRewardPool },
           some
             { penaltyAmount := penaltyAmount
               toRewardPool := toRewardPool
               toProtocol := toProtocol
               tierMultiplier := tierMultiplier },
           { cooldownEnd := cooldownEnd, isEarlyUnstake := true })
      else
        .ok
          ({ p with
              cooldownEnd := some cooldownEnd
              pendingPrincipal := some p.amount
              isActive := false },
           st, none,
           { cooldownEnd := cooldownEnd, isEarlyUnstake := false })

/-- `StakingService.finalizeUnstake` (FinalizeClose).  The guard
`!position.cooldownEnd || position.cooldownEnd === BigInt(0)` is
`cooldownEnd.getD 0 = 0`.  On success the row is updated to
`cooldownEnd = 0`, `pendingPrincipal = 0`, `amount = 0` (all zero, not null)
and the response's amount is the pre-clear `pendingPrincipal` (rendered as
`'0'` when null).  `ProgramState` is never read or written here. -/
def finalizeUnstake (position : Option StakePosition) (now : Nat) :
    Except FinalizeErr (StakePosition × Nat) :=
  match position with
  | none => .error .notFound
  | some p =>
    if p.isActive = true then .error .stillActive
    else if p.cooldownEnd.getD 0 = 0 then .error .noCooldown
    else if now < p.cooldownEnd.getD 0 then
      .error (.cooldownNotElapsed (p.cooldownEnd.getD 0 - now))
    else
      .ok
        ({ p with cooldownEnd := some 0, pendingPrincipal := some 0, amount := 0 },
         p.pendingPrincipal.getD 0)

/-- `const weekInSeconds = 7 * 24 * 60 * 60` in `RewardsService.claimRewards`. -/
def weekInSeconds : Nat := 7 * 24 * 60 * 60

/-- `const lastClaim = position.lastClaimTs ? Number(position.lastClaimTs) :
Number(position.startTs)`: a zero (falsy) `lastClaimTs` falls back to
`startTs`. -/
def lastClaimOf (p : StakePosition) : Nat :=
  if p.lastClaimTs = 0 then p.startTs else p.lastClaimTs

/-- `RewardsService.claimRewards` (Claim).  `weeksElapsed` is
`Math.floor((now - lastRewardTs) / weekInSeconds)` over JS numbers, so it is
the floor division of a possibly negative difference, modelled with
`Int.fdiv`.  On success the reward receipt is created with
`vestTs = now + vestingPeriod` and the position's `lastRewardTs` and
`lastClaimTs` both advance to `now`. -/
def claimRewards (position : Option StakePosition) (st : ProgramState)
    (now vestingPeriod : Nat) :
    Except ClaimErr (StakePosition × RewardNft) :=
  match position with
  | none => .error .notFound
  | some p =>
    if p.isActive = false then .error .notActive
    else if now < lastClaimOf p + weekInSeconds then
      .error (.tooSoon (lastClaimOf p + weekInSeconds - now))
    else
      let weeksElapsed : Int :=
        Int.fdiv ((now : Int) - (p.lastRewardTs : Int)) (weekInSeconds : Int)
      if weeksElapsed = 0 then .error .nothingAccrued
      else
        let rewardAmount :=
          calculateProRataReward (p.stakingPower : Int) (st.totalStakingPower : Int)
            (st.totalRewardPool : Int) weeksElapsed
        if rewardAmount = 0 then .error .noReward
        else
          .ok
            ({ p with lastRewardTs := now, lastClaimTs := now },
             { rewardAmount := rewardAmount
               vestTs := now + vestingPeriod
               isActive := true })

/-- The database contents the scheduler jobs and aggregate claims range over:
the stake-position table and the `ProgramState` singleton. -/
structure World where
  positions : List StakePosition
  state : ProgramState
deriving Repr, DecidableEq

/-- Sum of `amount` over the positions with `isActive = true`. -/
def sumActivePrincipal (ps : List StakePosition) : Nat :=
  (ps.filter (fun p => p.isActive)).foldr (fun p acc => p.amount + acc) 0

/-- Sum of `stakingPower` over the positions with `isActive = true`. -/
def sumActivePower (ps : List StakePosition) : Nat :=
  (ps.filter (fun p => p.isActive)).foldr (fun p acc => p.stakingPower + acc) 0

/-- `prisma.stakingTier.findUnique({ where: { tierId } })` over the tier
table. -/
def findTier (tiers : List StakingTier) (tierId : Nat) : Option StakingTier :=
  tiers.find? (fun t => t.tierId = tierId)

/-- Database-level Open: `stakeTokens` looks the tier up, creates the position
row and, as in the source, leaves `ProgramState` untouched. -/
def openPosition (w : World) (tiers : List StakingTier)
    (amount durationMonths tierId now : Nat) : Except StakeErr World :=
  match stakeTokens (findTier tiers tierId) amount durationMonths tierId now with
  | .error e => .error e
  | .ok (p, _) => .ok { w with positions := w.positions ++ [p] }

/-- The Prisma filter of
`CooldownFinalizerProcessor.handleCooldownFinalization`:
`{ isActive: true, cooldownEnd: { not: null, lte: now },
pendingPrincipal: { not: null, gt: 0 } }`. -/
def sweepEligible (now : Nat) (p : StakePosition) : Bool :=
  p.isActive
    && (match p.cooldownEnd with
        | some c => c ≤ now
        | none => false)
    && (match p.pendingPrincipal with
        | some pp => 0 < pp
        | none => false)

/-- The per-position update of the cooldown finalizer:
`isActive = false`, `pendingPrincipal = 0`, `cooldownEnd = null`. -/
def finalizeSweptPosition (p : StakePosition) : StakePosition :=
  { p with isActive := false, pendingPrincipal := some 0, cooldownEnd := none }

/-- The per-position `ProgramState` update of the cooldown finalizer:
`totalStaked = BigInt(Math.max(0, totalStaked - amount))` and likewise for
`totalStakingPower`; the clamped JS subtraction is exactly truncated `Nat`
subtraction. -/
def sweepDecrement (st : ProgramState) (p : StakePosition) : ProgramState :=
  { st with
      totalStaked := st.totalStaked - p.amount
      totalStakingPower := st.totalStakingPower - p.stakingPower }

/-- `CooldownFinalizerProcessor.handleCooldownFinalization`: select every
position matching `sweepEligible`, finalize each selected row and fold the
aggregate decrement over them; the returned number is the job's `finalized`
count. -/
def cooldownSweep (w : World) (now : Nat) : World × Nat :=
  let eligible := w.positions.filter (sweepEligible now)
  ({ positions :=
       w.positions.map (fun p => if sweepEligible now p then finalizeSweptPosition p else p)
     state := eligible.foldl sweepDecrement w.state },
   eligible.length)

/-- Outcome reported by `RewardDistributionProcessor.handleWeeklyDistribution`:
`{ skipped: true }` when paused, `{ distributed: 0, amount: 0 }` when there is
no active position, and otherwise the new epoch, the number of positions whose
timestamp was updated and the stored weekly emission. -/
inductive DistributionOutcome where
  | skippedPaused
  | noActivePositions
  | completed (epoch positionsUpdated weeklyEmission : Nat)
deriving Repr, DecidableEq

/-- `const userShare = Math.floor((weeklyPoolEmission * stakingPower) /
totalStakingPower)` tested with `userShare > 0`.  When `totalStakingPower = 0`
JS divides by zero: a positive numerator gives Infinity (counts as `> 0`), a
zero numerator gives NaN (does not), hence the explicit branch. -/
def positiveUserShare (emission totalPower : Nat) (p : StakePosition) : Bool :=
  if totalPower = 0 then 0 < emission * p.stakingPower
  else 0 < emission * p.stakingPower / totalPower

/-- `RewardDistributionProcessor.handleWeeklyDistribution` (Epoch Advance):
skip when paused; return early (no mutation at all) when no position is
active; otherwise compute the weekly emission `floor(pool * 21 / 10000)`,
advance `lastRewardTs` to `now` on exactly the active positions with a
positive user share, and update the `ProgramState` epoch fields. -/
def handleWeeklyDistribution (w : World) (now : Nat) : World × DistributionOutcome :=
  if w.state.isPaused = true then (w, .skippedPaused)
  else
    let activePositions := w.positions.filter (fun p => p.isActive)
    if activePositions.isEmpty then (w, .noActivePositions)
    else
      let emission := w.state.totalRewardPool * 21 / 10000
      let updatedCount :=
        (activePositions.filter (positiveUserShare emission w.state.totalStakingPower)).length
      ({ positions :=
           w.positions.map (fun p =>
             if p.isActive && positiveUserShare emission w.state.totalStakingPower p then
               { p with lastRewardTs := now }
             else p)
         state :=
           { w.state with
               currentEpoch := w.state.currentEpoch + 1
               currentEpochStartTs := now
               currentWeeklyEmission := emission } },
       .completed (w.state.currentEpoch + 1) updatedCount emission)

/-- The tier of the spec's concrete scenario and of the repository's own test
helpers (`createMockStakingTier(1)`): tier 1, multiplier 150, months 1–60,
active; `getTierPenaltyMultiplier 1 = 500` basis points. -/
def demoTier : StakingTier :=
  { tierId := 1, multiplier := 150, minMonths := 1, maxMonths := 60, isActive := true }

/-- The seeded `ProgramState`: not paused, zero totals, a 10^12 reward pool. -/
def demoState : ProgramState :=
  { isPaused := false, currentEpoch := 1, currentEpochStartTs := 0,
    currentWeeklyEmission := 1000000000, totalStaked := 0,
    totalRewardPool := 1000000000000, totalStakingPower := 0 }

/-- The position created by `stakeTokens demoTier 10^9 6 1` at `now = 0`. -/
def pDemo0 : StakePosition :=
  { amount := 1000000000, durationMonths := 6, tierId := 1, powerMultiplier := 150,
    stakingPower := 1500000000, startTs := 0, unlockTs := 15552000, lastRewardTs := 0,
    lastClaimTs := 0, cooldownEnd := none, pendingPrincipal := none, isActive := true }

/-- The response of that `stakeTokens` call. -/
def rDemo0 : StakeResult :=
  { amount := 1000000000, durationMonths := 6, powerMultiplier := 150,
    stakingPower := 1500000000, unlockTimestamp := 15552000 }

/-- `pDemo0` after `unstakeTokens` at `now = 50` with a 50-second cooldown:
in cooldown until 100 with the 5%-penalty-reduced pending principal. -/
def pDemo1 : StakePosition :=
  { pDemo0 with
      cooldownEnd := some 100
      pendingPrincipal := some 950000000
      isActive := false }

/-- `demoState` after that early unstake credited half the 5 * 10^7 penalty. -/
def stDemo1 : ProgramState := { demoState with totalRewardPool := 1000025000000 }

/-- The `PenaltyTransaction` row written by that early unstake. -/
def ptDemo : PenaltyTransaction :=
  { penaltyAmount := 50000000, toRewardPool := 25000000, toProtocol := 25000000,
    tierMultiplier := 500 }

/-- `pDemo1` after `finalizeUnstake` at `now = 100`: every cleared column is
zero, not null. -/
def pDemo2 : StakePosition :=
  { pDemo1 with cooldownEnd := some 0, pendingPrincipal := some 0, amount := 0 }

/-- An active position holding 100% of the staking power, opened at t = 1000. -/
def pClaimDemo : StakePosition :=
  { amount := 100000000, durationMonths := 3, tierId := 1, powerMultiplier := 100,
    stakingPower := 100000000, startTs := 1000, unlockTs := 7777000, lastRewardTs := 1000,
    lastClaimTs := 1000, cooldownEnd := none, pendingPrincipal := none, isActive := true }

/-- Program state for the claim scenario: total power equals the position's. -/
def stClaimDemo : ProgramState :=
  { isPaused := false, currentEpoch := 1, currentEpochStartTs := 0,
    currentWeeklyEmission := 1000000000, totalStaked := 100000000,
    totalRewardPool := 1000000000000, totalStakingPower := 100000000 }

/-- `pClaimDemo` after a successful claim at t = 1210600 (two weeks later). -/
def pClaimDemo2 : StakePosition :=
  { pClaimDemo with lastRewardTs := 1210600, lastClaimTs := 1210600 }

/-- The receipt of that claim: the APY-capped two-week reward. -/
def nftDemo : RewardNft :=
  { rewardAmount := 2884615, vestTs := 32746600, isActive := true }

/-- An active position that earns no share because the reward pool is empty. -/
def pEpochDemo : StakePosition :=
  { amount := 1000000000, durationMonths := 6, tierId := 1, powerMultiplier := 150,
    stakingPower := 1500000000, startTs := 0, unlockTs := 15552000, lastRewardTs := 0,
    lastClaimTs := 0, cooldownEnd := none, pendingPrincipal := none, isActive := true }

/-- World for the epoch-advance counterexample: not paused, empty pool. -/
def wEpochDemo : World :=
  { positions := [pEpochDemo],
    state :=
      { isPaused := false, currentEpoch := 1, currentEpochStartTs := 0,
        currentWeeklyEmission := 1000000000, totalStaked := 1000000000,
        totalRewardPool := 0, totalStakingPower := 1500000000 } }

/-- States one position can reach through the four operations of claim C9 —
Open, InitiateClose (with a positive configured cooldown period),
FinalizeClose and the per-position cooldown-finalizer step — paired with a
ghost flag recording whether the withdrawal has been finalized by either
path. -/
inductive PosReach : StakePosition → Bool → Prop where
  | opened (tier : Option StakingTier) (amount durationMonths tierId now : Nat)
      (p : StakePosition) (r : StakeResult)
      (h : stakeTokens tier amount durationMonths tierId now = .ok (p, r)) :
      PosReach p false
  | unstaked (p : StakePosition) (f : Bool) (st st' : ProgramState)
      (now cooldownPeriod : Nat) (hcp : 0 < cooldownPeriod)
      (p' : StakePosition) (pt : Option PenaltyTransaction) (r : UnstakeResult)
      (hp : PosReach p f)
      (h : unstakeTokens (some p) st now cooldownPeriod = .ok (p', st', pt, r)) :
      PosReach p' f
  | finalizedStep (p : StakePosition) (f : Bool) (now : Nat)
      (p' : StakePosition) (amt : Nat)
      (hp : PosReach p f)
      (h : finalizeUnstake (some p) now = .ok (p', amt)) :
      PosReach p' true
  | sweptStep (p : StakePosition) (f : Bool) (now : Nat)
      (hp : PosReach p f) :
      PosReach (if sweepEligible now p then finalizeSweptPosition p else p)
        (f || sweepEligible now p)

/-- The invariant the reachable states actually satisfy: the two nullable
columns are null together, a positive `cooldownEnd` marks exactly the
cooling-down-not-yet-finalized states, and an active position has both
columns null and no finalization in its history. -/
def posInvariant (p : StakePosition) (f : Bool) : Prop :=
  (p.pendingPrincipal ≠ none ↔ p.cooldownEnd ≠ none) ∧
  ((∃ c, p.cooldownEnd = some c ∧ 0 < c) ↔ (p.isActive = false ∧ f = false)) ∧
  (p.isActive = true → p.cooldownEnd = none ∧ p.pendingPrincipal = none ∧ f = false)

/-- Modelled from the spec: the literal coupling invariant of claim C9, with
"set" / "non-null" read as `≠ none` and finalization tracked by a ghost
flag. -/
def cooldownCouplingLiteral (p : StakePosition) (finalized : Bool) : Prop :=
  (p.pendingPrincipal ≠ none ↔ p.cooldownEnd ≠ none) ∧
  (p.cooldownEnd ≠ none ↔ (p.isActive = false ∧ finalized = false))

/-- JS `Math.floor` division of two non-negative integers is `Nat` division. -/
theorem fdiv_natCast (a b : Nat) : Int.fdiv (a : Int) (b : Int) = ((a / b : Nat) : Int) := by
  rw [Int.fdiv_eq_tdiv (by positivity) (by positivity)]
  exact (Int.ofNat_tdiv a b).symm

/-- The `weeksElapsed` computation of `claimRewards` under monotone time. -/
theorem weeksElapsed_of_le {a n : Nat} (h : a ≤ n) (w : Nat) :
    Int.fdiv ((n : Int) - (a : Int)) (w : Int) = (((n - a) / w : Nat) : Int) := by
  rw [← Int.ofNat_sub h, fdiv_natCast]

theorem applyApyCap_zero_weeks (s raw : Int) : applyApyCap s raw 0 = raw := by
  simp [applyApyCap]

theorem applyApyCap_pos_eq (s raw w : Nat) (hs : 0 < s) (hw : 0 < w) :
    applyApyCap (s : Int) (raw : Int) (w : Int) =
      (if 7500 < raw * 52 * 10000 / (s * w) then
        ((s * 7500 * w / (10000 * 52) : Nat) : Int)
      else (raw : Int)) := by
  have hw' : ((w : Nat) : Int) ≠ 0 := by exact_mod_cast hw.ne'
  have hs' : ((s : Nat) : Int) ≠ 0 := by exact_mod_cast hs.ne'
  have hA : ((raw : Int) * 52 * 10000).fdiv ((s : Int) * (w : Int)) =
      ((raw * 52 * 10000 / (s * w) : Nat) : Int) := by
    have h := fdiv_natCast (raw * 52 * 10000) (s * w)
    push_cast at h
    exact h
  have hB : ((s : Int) * 7500 * (w : Int)).fdiv (10000 * 52) =
      ((s * 7500 * w / (10000 * 52) : Nat) : Int) := by
    have h := fdiv_natCast (s * 7500 * w) (10000 * 52)
    push_cast at h
    exact h
  simp only [applyApyCap, if_neg hw', if_neg hs', hA, hB]
  by_cases hc : 7500 < raw * 52 * 10000 / (s * w)
  · rw [if_pos (by exact_mod_cast hc), if_pos hc]
  · rw [if_neg (by exact_mod_cast hc), if_neg hc]

theorem applyApyCap_le_raw (s raw w : Nat) :
    applyApyCap (s : Int) (raw : Int) (w : Int) ≤ (raw : Int) := by
  rcases Nat.eq_zero_or_pos w with hw | hw
  · subst hw
    simp [applyApyCap]
  rcases Nat.eq_zero_or_pos s with hs | hs
  · subst hs
    have hw' : ((w : Nat) : Int) ≠ 0 := by exact_mod_cast hw.ne'
    simp only [applyApyCap, Nat.cast_zero, if_neg hw', if_pos rfl]
    positivity
  rw [applyApyCap_pos_eq s raw w hs hw]
  by_cases hc : 7500 < raw * 52 * 10000 / (s * w)
  · rw [if_pos hc]
    have hsw : 0 < s * w := Nat.mul_pos hs hw
    have h1 : 7501 * (s * w) ≤ raw * 52 * 10000 := by
      have := (Nat.le_div_iff_mul_le hsw).1 hc
      omega
    have h2 : s * 7500 * w < raw * (10000 * 52) := by nlinarith
    have h3 : s * 7500 * w / (10000 * 52) < raw :=
      (Nat.div_lt_iff_lt_mul (by norm_num)).2 (by omega)
    exact_mod_cast h3.le
  · rw [if_neg hc]

/-- Claim C7: `applyApyCap` returns the raw reward unmodified when
`weeksElapsed = 0`; for positive inputs it returns the clamp
`floor(stakedAmount * 7500 * weeksElapsed / (10000 * 52))` exactly when the
annualized rate `floor(rawReward * 52 * 10000 / (stakedAmount *
weeksElapsed))` exceeds 7500 basis points, and it never returns more than the
uncapped raw reward. -/
theorem apyCap_spec :
    (∀ s raw : Nat, applyApyCap (s : Int) (raw : Int) 0 = raw) ∧
    (∀ s raw w : Nat, 0 < s → 0 < w →
      applyApyCap (s : Int) (raw : Int) (w : Int) =
        (if 7500 < raw * 52 * 10000 / (s * w) then
          ((s * 7500 * w / (10000 * 52) : Nat) : Int)
        else (raw : Int))) ∧
    (∀ s raw w : Nat, applyApyCap (s : Int) (raw : Int) (w : Int) ≤ (raw : Int)) :=
  ⟨fun s raw => applyApyCap_zero_weeks s raw,
   fun s raw w hs hw => applyApyCap_pos_eq s raw w hs hw,
   fun s raw w => applyApyCap_le_raw s raw w⟩

theorem apyCap_spec_witness :
    applyApyCap 100000000 4200000000 2 = 2884615 ∧
    applyApyCap (7 : Int) (3 : Int) 0 = 3 ∧
    applyApyCap (100000000 : Int) (4200000000 : Int) (2 : Int) ≤ 4200000000 := by
  refine ⟨?_, apyCap_spec.1 7 3, apyCap_spec.2.2 100000000 4200000000 2⟩
  have h := apyCap_spec.2.1 100000000 4200000000 2 (by norm_num) (by norm_num)
  rw [show ((100000000 : Nat) : Int) = (100000000 : Int) from rfl] at h
  norm_num at h
  exact_mod_cast h

theorem unstake_early_penalty_inv (p : StakePosition) (st : ProgramState)
    (now cp : Nat) (p' : StakePosition) (st' : ProgramState)
    (pt : Option PenaltyTransaction) (r : UnstakeResult)
    (h : unstakeTokens (some p) st now cp = .ok (p', st', pt, r))
    (hearly : now < p.unlockTs) :
    pt = some
      { penaltyAmount := p.amount * getTierPenaltyMultiplier p.tierId / 10000
        toRewardPool := p.amount * getTierPenaltyMultiplier p.tierId / 10000 / 2
        toProtocol := p.amount * getTierPenaltyMultiplier p.tierId / 10000 / 2
        tierMultiplier := getTierPenaltyMultiplier p.tierId } := by
  simp only [unstakeTokens] at h
  split_ifs at h with h1 h2
  all_goals
    first
      | exact Except.noConfusion h
      | (simp only [Except.ok.injEq, Prod.mk.injEq] at h
         exact h.2.2.1.symm)

/-- Claim C10: the early-close penalty rate is a hardcoded total function of
the tier id (500/750/1000/1250 bp for tiers 1–4, 500 bp for every other id),
InitiateClose takes the rate from this table (the embedded `unstakeTokens`,
like the source, consults no tier record), and for an unknown tier id the
penalty is `floor(principal * 500 / 10000)`. -/
theorem tierPenaltyTable_spec :
    getTierPenaltyMultiplier 1 = 500 ∧ getTierPenaltyMultiplier 2 = 750 ∧
    getTierPenaltyMultiplier 3 = 1000 ∧ getTierPenaltyMultiplier 4 = 1250 ∧
    (∀ tid : Nat, tid ≠ 1 → tid ≠ 2 → tid ≠ 3 → tid ≠ 4 →
      getTierPenaltyMultiplier tid = 500) ∧
    (∀ (p : StakePosition) (st : ProgramState) (now cp : Nat) (p' : StakePosition)
       (st' : ProgramState) (pt : PenaltyTransaction) (r : UnstakeResult),
      unstakeTokens (some p) st now cp = .ok (p', st', some pt, r) →
      now < p.unlockTs →
      pt.penaltyAmount = p.amount * getTierPenaltyMultiplier p.tierId / 10000 ∧
      pt.tierMultiplier = getTierPenaltyMultiplier p.tierId) ∧
    (∀ (p : StakePosition) (st : ProgramState) (now cp : Nat) (p' : StakePosition)
       (st' : ProgramState) (pt : PenaltyTransaction) (r : UnstakeResult),
      p.tierId ≠ 1 → p.tierId ≠ 2 → p.tierId ≠ 3 → p.tierId ≠ 4 →
      unstakeTokens (some p) st now cp = .ok (p', st', some pt, r) →
      now < p.unlockTs →
      pt.penaltyAmount = p.amount * 500 / 10000) := by
  refine ⟨rfl, rfl, rfl, rfl, ?_, ?_, ?_⟩
  · intro tid h1 h2 h3 h4
    simp [getTierPenaltyMultiplier, h1, h2, h3, h4]
  · intro p st now cp p' st' pt r h hearly
    have := unstake_early_penalty_inv p st now cp p' st' (some pt) r h hearly
    simp only [Option.some.injEq] at this
    rw [this]
    exact ⟨rfl, rfl⟩
  · intro p st now cp p' st' pt r h1 h2 h3 h4 h hearly
    have := unstake_early_penalty_inv p st now cp p' st' (some pt) r h hearly
    simp only [Option.some.injEq] at this
    rw [this]
    simp [getTierPenaltyMultiplier, h1, h2, h3, h4]

theorem tierPenaltyTable_spec_witness :
    getTierPenaltyMultiplier 7 = 500 ∧
    (∃ pt : PenaltyTransaction,
      unstakeTokens (some pDemo0) demoState 50 50 =
        .ok (pDemo1, stDemo1, some pt, { cooldownEnd := 100, isEarlyUnstake := true }) ∧
      pt.penaltyAmount = pDemo0.amount * getTierPenaltyMultiplier pDemo0.tierId / 10000) := by
  refine ⟨tierPenaltyTable_spec.2.2.2.2.1 7 (by decide) (by decide) (by decide) (by decide),
    ⟨ptDemo, rfl, ?_⟩⟩
  exact (tierPenaltyTable_spec.2.2.2.2.2.1 pDemo0 demoState 50 50 pDemo1 stDemo1 ptDemo
    { cooldownEnd := 100, isEarlyUnstake := true } rfl (by decide)).1

theorem weeklyPoolEmission_natCast (pool : Nat) :
    weeklyPoolEmission (pool : Int) = ((pool * 21 / 10000 : Nat) : Int) := by
  have h := fdiv_natCast (pool * 21) 10000
  push_cast at h
  simpa [weeklyPoolEmission] using h

theorem userWeeklyShare_natCast (pool u t : Nat) :
    userWeeklyShare (pool : Int) (u : Int) (t : Int) =
      ((pool * 21 / 10000 * u / t : Nat) : Int) := by
  have h := fdiv_natCast (pool * 21 / 10000 * u) t
  push_cast at h
  simpa [userWeeklyShare, weeklyPoolEmission_natCast] using h

/-- Claim C6: `calculateProRataReward` returns 0 whenever the total or the
user staking power is zero; otherwise the weekly emission is
`floor(pool * 21 / 10000)`, the user's weekly share is
`floor(emission * userPower / totalPower)`, the raw reward is the share times
the elapsed weeks (then passed to the APY cap); in the spec's concrete
scenario the emission and share are 2_100_000_000 and the 2-week raw reward is
4_200_000_000. -/
theorem proRataReward_spec :
    (∀ u t pool w : Nat, t = 0 ∨ u = 0 →
      calculateProRataReward (u : Int) (t : Int) (pool : Int) (w : Int) = 0) ∧
    (∀ u t pool w : Nat, 0 < u → 0 < t →
      weeklyPoolEmission (pool : Int) = ((pool * 21 / 10000 : Nat) : Int) ∧
      userWeeklyShare (pool : Int) (u : Int) (t : Int) =
        ((pool * 21 / 10000 * u / t : Nat) : Int) ∧
      calculateProRataReward (u : Int) (t : Int) (pool : Int) (w : Int) =
        applyApyCap (u : Int) (((pool * 21 / 10000 * u / t : Nat) : Int) * (w : Int))
          (w : Int)) ∧
    weeklyPoolEmission 1000000000000 = 2100000000 ∧
    userWeeklyShare 1000000000000 100000000 100000000 = 2100000000 ∧
    userWeeklyShare 1000000000000 100000000 100000000 * 2 = 4200000000 := by
  refine ⟨?_, ?_, rfl, rfl, rfl⟩
  · intro u t pool w h
    rcases h with h | h <;>
      simp [calculateProRataReward, h]
  · intro u t pool w hu ht
    have hu' : ((u : Nat) : Int) ≠ 0 := by exact_mod_cast hu.ne'
    have ht' : ((t : Nat) : Int) ≠ 0 := by exact_mod_cast ht.ne'
    refine ⟨weeklyPoolEmission_natCast pool, userWeeklyShare_natCast pool u t, ?_⟩
    simp only [calculateProRataReward, userWeeklyShare_natCast pool u t]
    rw [if_neg (by push_neg; exact ⟨ht', hu'⟩)]

theorem proRataReward_spec_witness :
    calculateProRataReward (5 : Int) (0 : Int) (7 : Int) (1 : Int) = 0 ∧
    calculateProRataReward (100000000 : Int) (100000000 : Int) (1000000000000 : Int)
        (2 : Int) =
      applyApyCap (100000000 : Int)
        (((1000000000000 * 21 / 10000 * 100000000 / 100000000 : Nat) : Int) * (2 : Int))
        (2 : Int) := by
  constructor
  · exact_mod_cast proRataReward_spec.1 5 0 7 1 (Or.inl rfl)
  · exact_mod_cast (proRataReward_spec.2.1 100000000 100000000 1000000000000 2
      (by norm_num) (by norm_num)).2.2

/-- Claim C3: an InitiateClose at `now < unlockTs` reports
`isEarlyUnstake = true`, writes a penalty record with
`penaltyAmount = floor(principal * tierRate / 10000)`, credits the reward pool
with exactly `floor(penalty / 2)` and leaves
`pendingPrincipal = principal - penalty`; in the spec's concrete scenario
(tier 1, months 1–60, 500 bp; principal 10^9, 6 months) the multiplier is
15000 bp, the staking power 1_500_000_000, the penalty 50_000_000, the pool
credit 25_000_000 and the pending principal 950_000_000. -/
theorem earlyUnstake_spec :
    (∀ (p : StakePosition) (st : ProgramState) (now cp : Nat),
      p.isActive = true → p.cooldownEnd = none → now < p.unlockTs →
      unstakeTokens (some p) st now cp =
        .ok
          ({ p with
              cooldownEnd := some (now + cp)
              pendingPrincipal :=
                some (p.amount - p.amount * getTierPenaltyMultiplier p.tierId / 10000)
              isActive := false },
           { st with
              totalRewardPool :=
                st.totalRewardPool +
                  p.amount * getTierPenaltyMultiplier p.tierId / 10000 / 2 },
           some
             { penaltyAmount := p.amount * getTierPenaltyMultiplier p.tierId / 10000
               toRewardPool := p.amount * getTierPenaltyMultiplier p.tierId / 10000 / 2
               toProtocol := p.amount * getTierPenaltyMultiplier p.tierId / 10000 / 2
               tierMultiplier := getTierPenaltyMultiplier p.tierId },
           { cooldownEnd := now + cp, isEarlyUnstake := true })) ∧
    stakeTokens (some demoTier) 1000000000 6 1 0 = .ok (pDemo0, rDemo0) ∧
    pDemo0.powerMultiplier * 100 = 15000 ∧
    pDemo0.stakingPower = 1500000000 ∧
    unstakeTokens (some pDemo0) demoState 50 50 =
      .ok (pDemo1, stDemo1, some ptDemo, { cooldownEnd := 100, isEarlyUnstake := true }) ∧
    ptDemo.penaltyAmount = 50000000 ∧
    ptDemo.toRewardPool = 25000000 ∧
    pDemo1.pendingPrincipal = some 950000000 ∧
    stDemo1.totalRewardPool = demoState.totalRewardPool + 25000000 := by
  refine ⟨?_, rfl, rfl, rfl, rfl, rfl, rfl, rfl, rfl⟩
  intro p st now cp hact hcd hearly
  simp [unstakeTokens, hact, hcd, hearly]

theorem earlyUnstake_spec_witness :
    unstakeTokens (some pDemo0) demoState 50 50 =
      .ok
        ({ pDemo0 with
            cooldownEnd := some 100
            pendingPrincipal :=
              some (pDemo0.amount -
                pDemo0.amount * getTierPenaltyMultiplier pDemo0.tierId / 10000)
            isActive := false },
         { demoState with
            totalRewardPool :=
              demoState.totalRewardPool +
                pDemo0.amount * getTierPenaltyMultiplier pDemo0.tierId / 10000 / 2 },
         some
           { penaltyAmount := pDemo0.amount * getTierPenaltyMultiplier pDemo0.tierId / 10000
             toRewardPool :=
               pDemo0.amount * getTierPenaltyMultiplier pDemo0.tierId / 10000 / 2
             toProtocol :=
               pDemo0.amount * getTierPenaltyMultiplier pDemo0.tierId / 10000 / 2
             tierMultiplier := getTierPenaltyMultiplier pDemo0.tierId },
         { cooldownEnd := 100, isEarlyUnstake := true }) :=
  earlyUnstake_spec.1 pDemo0 demoState 50 50 rfl rfl (by decide)

/-- Claim C4: with a positive cooldown set, FinalizeClose before
`cooldownEndTs` fails with CooldownNotElapsed carrying the remaining seconds
and performs no update; at or after `cooldownEndTs` it succeeds, returning the
pre-clear `pendingPrincipal` and zeroing the row, and an immediately following
second call fails with NoCooldown. -/
theorem finalize_spec :
    ∀ (p : StakePosition) (c now now2 : Nat),
      p.isActive = false → p.cooldownEnd = some c → 0 < c →
      (now < c →
        finalizeUnstake (some p) now = .error (.cooldownNotElapsed (c - now))) ∧
      (c ≤ now →
        finalizeUnstake (some p) now =
          .ok ({ p with cooldownEnd := some 0, pendingPrincipal := some 0, amount := 0 },
            p.pendingPrincipal.getD 0) ∧
        finalizeUnstake
          (some { p with cooldownEnd := some 0, pendingPrincipal := some 0, amount := 0 })
          now2 = .error .noCooldown) := by
  intro p c now now2 hact hcd hc
  constructor
  · intro hlt
    simp [finalizeUnstake, hact, hcd, hc.ne', hlt]
  · intro hge
    constructor
    · simp [finalizeUnstake, hact, hcd, hc.ne', not_lt.2 hge]
    · simp [finalizeUnstake, hact]

theorem finalize_spec_witness :
    (finalizeUnstake (some pDemo1) 99 = .error (.cooldownNotElapsed 1)) ∧
    finalizeUnstake (some pDemo1) 100 = .ok (pDemo2, 950000000) ∧
    finalizeUnstake (some pDemo2) 101 = .error .noCooldown := by
  have h := finalize_spec pDemo1 100 99 101 rfl rfl (by decide)
  have h2 := finalize_spec pDemo1 100 100 101 rfl rfl (by decide)
  exact ⟨h.1 (by decide), (h2.2 (by decide)).1, (h2.2 (by decide)).2⟩

theorem claimRewards_ok_inv (p : StakePosition) (st : ProgramState) (now vp : Nat)
    (p' : StakePosition) (nft : RewardNft)
    (h : claimRewards (some p) st now vp = .ok (p', nft)) :
    p.isActive = true ∧ lastClaimOf p + weekInSeconds ≤ now ∧
    Int.fdiv ((now : Int) - (p.lastRewardTs : Int)) (weekInSeconds : Int) ≠ 0 ∧
    p' = { p with lastRewardTs := now, lastClaimTs := now } := by
  simp only [claimRewards] at h
  split_ifs at h with h1 h2 h3 h4
  all_goals
    first
      | exact Except.noConfusion h
      | (simp only [Except.ok.injEq, Prod.mk.injEq] at h
         exact ⟨by revert h1; cases p.isActive <;> simp, not_lt.1 h2, h3, h.1.symm⟩)

/-- Claim C5: under monotone time (`lastRewardTs ≤ now`), a Claim succeeds
only on an active position with `now ≥ lastClaim + 7 days` and
`weeksElapsed = floor((now - lastRewardTs) / week) > 0`; a premature call
fails with TooSoon carrying the remaining wait (in particular a second claim
within 7 days of a successful one), `weeksElapsed = 0` fails with
NothingAccrued, a zero reward fails with NoReward, and success advances both
`lastRewardTs` and `lastClaimTs` to `now`. -/
theorem claim_spec :
    ∀ (p : StakePosition) (st : ProgramState) (now vp : Nat),
      p.lastRewardTs ≤ now →
      ((∀ (p' : StakePosition) (nft : RewardNft),
          claimRewards (some p) st now vp = .ok (p', nft) →
          p.isActive = true ∧ lastClaimOf p + weekInSeconds ≤ now ∧
          0 < (now - p.lastRewardTs) / weekInSeconds ∧
          p'.lastRewardTs = now ∧ p'.lastClaimTs = now ∧ p'.isActive = true) ∧
       (p.isActive = true → now < lastClaimOf p + weekInSeconds →
          claimRewards (some p) st now vp =
            .error (.tooSoon (lastClaimOf p + weekInSeconds - now))) ∧
       (p.isActive = true → lastClaimOf p + weekInSeconds ≤ now →
          (now - p.lastRewardTs) / weekInSeconds = 0 →
          claimRewards (some p) st now vp = .error .nothingAccrued) ∧
       (p.isActive = true → lastClaimOf p + weekInSeconds ≤ now →
          0 < (now - p.lastRewardTs) / weekInSeconds →
          calculateProRataReward (p.stakingPower : Int) (st.totalStakingPower : Int)
              (st.totalRewardPool : Int)
              (((now - p.lastRewardTs) / weekInSeconds : Nat) : Int) = 0 →
          claimRewards (some p) st now vp = .error .noReward) ∧
       (∀ (p' : StakePosition) (nft : RewardNft) (st2 : ProgramState) (now2 vp2 : Nat),
          claimRewards (some p) st now vp = .ok (p', nft) →
          now2 < now + weekInSeconds →
          claimRewards (some p') st2 now2 vp2 =
            .error (.tooSoon (now + weekInSeconds - now2)))) := by
  intro p st now vp hmono
  refine ⟨?_, ?_, ?_, ?_, ?_⟩
  · intro p' nft h
    obtain ⟨hact, hge, hwk, hp'⟩ := claimRewards_ok_inv p st now vp p' nft h
    rw [weeksElapsed_of_le hmono] at hwk
    refine ⟨hact, hge, Nat.pos_of_ne_zero (by exact_mod_cast hwk), ?_, ?_, ?_⟩ <;>
      simp [hp', hact]
  · intro hact hlt
    simp [claimRewards, hact, hlt]
  · intro hact hge hzero
    simp [claimRewards, hact, not_lt.2 hge, weeksElapsed_of_le hmono, hzero]
  · intro hact hge hpos hzero
    have hne : (((now - p.lastRewardTs) / weekInSeconds : Nat) : Int) ≠ 0 := by
      exact_mod_cast hpos.ne'
    simp only [claimRewards, weeksElapsed_of_le hmono]
    rw [if_neg (by simp [hact]), if_neg (not_lt.2 hge), if_neg hne, if_pos hzero]
  · intro p' nft st2 now2 vp2 h hlt2
    obtain ⟨hact, hge, hwk, hp'⟩ := claimRewards_ok_inv p st now vp p' nft h
    have hnow : p'.lastClaimTs = now := by simp [hp']
    have hnz : p'.lastClaimTs ≠ 0 := by
      rw [hnow]
      have : 0 < weekInSeconds := by norm_num [weekInSeconds]
      omega
    have hact' : p'.isActive = true := by simp [hp', hact]
    have hlast : lastClaimOf p' = now := by
      rw [lastClaimOf, if_neg hnz, hnow]
    simp [claimRewards, hact', hlast, hlt2]

theorem claim_spec_witness :
    claimRewards (some pClaimDemo) stClaimDemo 300000 31536000 =
      .error (.tooSoon 305800) ∧
    pClaimDemo2.lastRewardTs = 1210600 ∧ pClaimDemo2.lastClaimTs = 1210600 ∧
    claimRewards (some pClaimDemo2) stClaimDemo 1500000 31536000 =
      .error (.tooSoon 315400) :=
  ⟨(claim_spec pClaimDemo stClaimDemo 300000 31536000 (by decide)).2.1 rfl (by decide),
   ((claim_spec pClaimDemo stClaimDemo 1210600 31536000 (by decide)).1
      pClaimDemo2 nftDemo rfl).2.2.2.1,
   ((claim_spec pClaimDemo stClaimDemo 1210600 31536000 (by decide)).1
      pClaimDemo2 nftDemo rfl).2.2.2.2.1,
   (claim_spec pClaimDemo stClaimDemo 1210600 31536000 (by decide)).2.2.2.2
     pClaimDemo2 nftDemo stClaimDemo 1500000 31536000 rfl (by decide)⟩

/-- Claim C1 (refuted by the code): Open creates the position but performs no
write to `ProgramState`, so after one Open from the seeded state the sum of
active principal (10^9) differs from the untouched `totalStaked` (0); no code
path in the service increments the global totals. -/
theorem open_leaves_totals_unchanged :
    ∃ w : World,
      openPosition { positions := [], state := demoState } [demoTier] 1000000000 6 1 0 =
        .ok w ∧
      sumActivePrincipal w.positions = 1000000000 ∧
      sumActivePower w.positions = 1500000000 ∧
      w.state = demoState ∧
      w.state.totalStaked = 0 ∧
      w.state.totalStakingPower = 0 ∧
      sumActivePrincipal w.positions ≠ w.state.totalStaked :=
  ⟨{ positions := [pDemo0], state := demoState }, rfl, rfl, rfl, rfl, rfl, rfl, by decide⟩

/-- Claim C2 (refuted by the code): the sweep's Prisma filter requires
`isActive = true`, but `unstakeTokens` sets `isActive = false` when it opens
the cooldown, so a position whose cooldown has fully elapsed
(`active = false`, `cooldownEnd = 100 ≤ now = 200`,
`pendingPrincipal = 950000000 > 0`) is not selected: the sweep finalizes zero
positions and leaves the world unchanged, on the first and on the second
run. -/
theorem sweep_misses_cooling_positions :
    unstakeTokens (some pDemo0) demoState 50 50 =
      .ok (pDemo1, stDemo1, some ptDemo, { cooldownEnd := 100, isEarlyUnstake := true }) ∧
    pDemo1.isActive = false ∧
    pDemo1.cooldownEnd = some 100 ∧
    pDemo1.pendingPrincipal = some 950000000 ∧
    sweepEligible 200 pDemo1 = false ∧
    cooldownSweep { positions := [pDemo1], state := stDemo1 } 200 =
      ({ positions := [pDemo1], state := stDemo1 }, 0) ∧
    cooldownSweep (cooldownSweep { positions := [pDemo1], state := stDemo1 } 200).1 200 =
      ({ positions := [pDemo1], state := stDemo1 }, 0) :=
  ⟨rfl, rfl, rfl, rfl, rfl, rfl, rfl⟩

/-- Claim C8 as stated is false: with an empty reward pool the weekly job
completes (it increments the epoch to 2) yet the single active position's
`lastRewardTs` stays 0 instead of advancing to `now = 999` because its user
share is zero; and with no active positions at all the job returns early
without incrementing the epoch. -/
theorem epochAdvance_claim_counterexample :
    wEpochDemo.state.isPaused = false ∧
    pEpochDemo.isActive = true ∧
    (handleWeeklyDistribution wEpochDemo 999).2 = .completed 2 0 0 ∧
    (handleWeeklyDistribution wEpochDemo 999).1.state.currentEpoch = 2 ∧
    (handleWeeklyDistribution wEpochDemo 999).1.positions = [pEpochDemo] ∧
    pEpochDemo.lastRewardTs ≠ 999 ∧
    handleWeeklyDistribution { positions := [], state := demoState } 999 =
      ({ positions := [], state := demoState }, .noActivePositions) ∧
    ({ positions := [], state := demoState } : World).state.currentEpoch = 1 :=
  ⟨rfl, rfl, rfl, rfl, rfl, by decide, rfl, rfl⟩

/-- Claim C8 (amended): when paused the weekly job mutates nothing and reports
skipped; when not paused and no position is active it returns early without
any mutation (the epoch is not incremented); otherwise it computes
`weeklyEmission = floor(pool * 21 / 10000)` from the current pool balance,
advances `lastRewardTs` to `now` exactly on the active positions with a
positive user share, increments the epoch by 1, sets `epochStartTs = now` and
stores the emission, leaving the totals untouched. -/
theorem epochAdvance_spec :
    ∀ (w : World) (now : Nat),
      (w.state.isPaused = true → handleWeeklyDistribution w now = (w, .skippedPaused)) ∧
      (w.state.isPaused = false → w.positions.filter (fun p => p.isActive) = [] →
        handleWeeklyDistribution w now = (w, .noActivePositions)) ∧
      (w.state.isPaused = false → w.positions.filter (fun p => p.isActive) ≠ [] →
        (handleWeeklyDistribution w now).1.state.currentEpoch =
          w.state.currentEpoch + 1 ∧
        (handleWeeklyDistribution w now).1.state.currentEpochStartTs = now ∧
        (handleWeeklyDistribution w now).1.state.currentWeeklyEmission =
          w.state.totalRewardPool * 21 / 10000 ∧
        (handleWeeklyDistribution w now).1.state.totalStaked = w.state.totalStaked ∧
        (handleWeeklyDistribution w now).1.state.totalStakingPower =
          w.state.totalStakingPower ∧
        (handleWeeklyDistribution w now).1.state.totalRewardPool =
          w.state.totalRewardPool ∧
        (handleWeeklyDistribution w now).1.positions =
          w.positions.map (fun p =>
            if p.isActive &&
                positiveUserShare (w.state.totalRewardPool * 21 / 10000)
                  w.state.totalStakingPower p then
              { p with lastRewardTs := now }
            else p)) := by
  intro w now
  refine ⟨?_, ?_, ?_⟩
  · intro hp
    simp [handleWeeklyDistribution, hp]
  · intro hp hempty
    simp [handleWeeklyDistribution, hp, hempty]
  · intro hp hne
    have hempty : (w.positions.filter (fun p => p.isActive)).isEmpty = false := by
      rw [List.isEmpty_eq_false_iff_exists_mem]
      rcases List.exists_mem_of_ne_nil _ hne with ⟨x, hx⟩
      exact ⟨x, hx⟩
    simp [handleWeeklyDistribution, hp, hempty]

theorem epochAdvance_spec_witness :
    handleWeeklyDistribution
      { positions := [], state := { demoState with isPaused := true } } 7 =
      ({ positions := [], state := { demoState with isPaused := true } },
        .skippedPaused) ∧
    (handleWeeklyDistribution wEpochDemo 999).1.state.currentEpoch =
      wEpochDemo.state.currentEpoch + 1 :=
  ⟨(epochAdvance_spec { positions := [], state := { demoState with isPaused := true } } 7).1
      rfl,
   ((epochAdvance_spec wEpochDemo 999).2.2 rfl (by decide)).1⟩

theorem stakeTokens_ok_inv (tier : Option StakingTier)
    (amount durationMonths tierId now : Nat) (p : StakePosition) (r : StakeResult)
    (h : stakeTokens tier amount durationMonths tierId now = .ok (p, r)) :
    p.isActive = true ∧ p.cooldownEnd = none ∧ p.pendingPrincipal = none := by
  cases tier with
  | none => exact Except.noConfusion h
  | some t =>
    simp only [stakeTokens] at h
    split_ifs at h
    all_goals
      first
        | exact Except.noConfusion h
        | (simp only [Except.ok.injEq, Prod.mk.injEq] at h
           obtain ⟨hp, -⟩ := h
           exact ⟨by rw [← hp], by rw [← hp], by rw [← hp]⟩)

theorem unstakeTokens_ok_inv (p : StakePosition) (st : ProgramState) (now cp : Nat)
    (p' : StakePosition) (st' : ProgramState) (pt : Option PenaltyTransaction)
    (r : UnstakeResult)
    (h : unstakeTokens (some p) st now cp = .ok (p', st', pt, r)) :
    p.isActive = true ∧ p.cooldownEnd.getD 0 = 0 ∧
    ∃ pend, p' =
      { p with
          cooldownEnd := some (now + cp)
          pendingPrincipal := some pend
          isActive := false } := by
  simp only [unstakeTokens] at h
  split_ifs at h with h1 h2
  all_goals
    first
      | exact Except.noConfusion h
      | (simp only [Except.ok.injEq, Prod.mk.injEq] at h
         exact ⟨by revert h1; cases p.isActive <;> simp, by omega, _, h.1.symm⟩)

theorem finalizeUnstake_ok_inv (p : StakePosition) (now : Nat)
    (p' : StakePosition) (amt : Nat)
    (h : finalizeUnstake (some p) now = .ok (p', amt)) :
    p.isActive = false ∧ (∃ c, p.cooldownEnd = some c ∧ 0 < c) ∧
    p' = { p with cooldownEnd := some 0, pendingPrincipal := some 0, amount := 0 } ∧
    amt = p.pendingPrincipal.getD 0 := by
  simp only [finalizeUnstake] at h
  split_ifs at h with h1 h2 h3
  all_goals
    first
      | exact Except.noConfusion h
      | (simp only [Except.ok.injEq, Prod.mk.injEq] at h
         refine ⟨by revert h1; cases p.isActive <;> simp, ?_, h.1.symm, h.2.symm⟩
         cases hc : p.cooldownEnd with
         | none => rw [hc] at h2; exact absurd rfl h2
         | some c =>
           rw [hc] at h2
           exact ⟨c, rfl, Nat.pos_of_ne_zero (by simpa using h2)⟩)

theorem sweepEligible_false_of_invariant (p : StakePosition) (f : Bool) (now : Nat)
    (hinv : posInvariant p f) : sweepEligible now p = false := by
  cases hact : p.isActive with
  | false => simp [sweepEligible, hact]
  | true => simp [sweepEligible, hact, (hinv.2.2 hact).1]

theorem posReach_invariant (p : StakePosition) (f : Bool) (h : PosReach p f) :
    posInvariant p f := by
  induction h with
  | opened tier amount durationMonths tierId now p r h =>
    obtain ⟨hact, hcd, hpp⟩ := stakeTokens_ok_inv tier amount durationMonths tierId now p r h
    refine ⟨by simp [hcd, hpp], ?_, fun _ => ⟨hcd, hpp, rfl⟩⟩
    simp [hcd, hact]
  | unstaked p f st st' now cooldownPeriod hcp p' pt r hp h ih =>
    obtain ⟨hact, -, pend, hp'⟩ := unstakeTokens_ok_inv p st now cooldownPeriod p' st' pt r h
    have hf : f = false := (ih.2.2 hact).2.2
    subst hf
    refine ⟨by simp [hp'], ?_, by simp [hp']⟩
    constructor
    · intro _
      simp [hp']
    · intro _
      exact ⟨now + cooldownPeriod, by simp [hp'], by omega⟩
  | finalizedStep p f now p' amt hp h ih =>
    obtain ⟨hact, hcd, hp', -⟩ := finalizeUnstake_ok_inv p now p' amt h
    rw [hact] at hp'
    refine ⟨by simp [hp'], ?_, by simp [hp']⟩
    constructor
    · rintro ⟨c, hc, hcpos⟩
      rw [hp'] at hc
      simp only [Option.some.injEq] at hc
      omega
    · rintro ⟨-, hff⟩
      exact Bool.noConfusion hff
  | sweptStep p f now hp ih =>
    rw [sweepEligible_false_of_invariant p f now ih]
    simpa using ih

/-- Claim C9 (amended): after every Open, InitiateClose, FinalizeClose and
cooldown-finalizer step, a position's `pendingPrincipal` is non-null exactly
when its `cooldownEnd` is non-null, and `cooldownEnd` is non-null *and
positive* if and only if `active = false` and the withdrawal has not yet been
finalized (FinalizeClose clears both columns to 0 rather than null). -/
theorem cooldown_coupling_spec :
    ∀ (p : StakePosition) (f : Bool), PosReach p f →
      (p.pendingPrincipal ≠ none ↔ p.cooldownEnd ≠ none) ∧
      ((∃ c, p.cooldownEnd = some c ∧ 0 < c) ↔ (p.isActive = false ∧ f = false)) :=
  fun p f h => ⟨(posReach_invariant p f h).1, (posReach_invariant p f h).2.1⟩

theorem cooldown_coupling_spec_witness :
    pDemo1.pendingPrincipal ≠ none ∧ (∃ c, pDemo1.cooldownEnd = some c ∧ 0 < c) := by
  have hr : PosReach pDemo1 false :=
    PosReach.unstaked pDemo0 false demoState stDemo1 50 50 (by norm_num) pDemo1
      (some ptDemo) { cooldownEnd := 100, isEarlyUnstake := true }
      (PosReach.opened (some demoTier) 1000000000 6 1 0 pDemo0 rDemo0 rfl) rfl
  have h := cooldown_coupling_spec pDemo1 false hr
  exact ⟨h.1.2 (by decide), h.2.2 ⟨rfl, rfl⟩⟩

/-- Claim C9 as stated is false on the code: after the reachable trace
Open → InitiateClose → FinalizeClose the position carries
`cooldownEnd = some 0` and `pendingPrincipal = some 0` — both non-null even
though the withdrawal is finalized — so the literal "cooldownEnd is set
(non-null) iff active is false and the withdrawal is not yet finalized"
fails. -/
theorem cooldown_coupling_claim_counterexample :
    PosReach pDemo2 true ∧
    pDemo2.cooldownEnd = some 0 ∧
    pDemo2.pendingPrincipal = some 0 ∧
    pDemo2.isActive = false ∧
    ¬ cooldownCouplingLiteral pDemo2 true := by
  refine ⟨?_, rfl, rfl, rfl, ?_⟩
  · exact PosReach.finalizedStep pDemo1 false 100 pDemo2 950000000
      (PosReach.unstaked pDemo0 false demoState stDemo1 50 50 (by norm_num) pDemo1
        (some ptDemo) { cooldownEnd := 100, isEarlyUnstake := true }
        (PosReach.opened (some demoTier) 1000000000 6 1 0 pDemo0 rDemo0 rfl) rfl)
      rfl
  · intro hlit
    have h := (hlit.2.1 (by decide)).2
    exact Bool.noConfusion h
end StakingBackend
